import Mathlib

/-!
Shallow embedding of the VaR computation and validation engine of
`src/cfd_bot/core/var_calculator.py` (class `VaRCalculator`), over exact
rationals.  Conventions used throughout:

* Machine floats are modelled as `ℚ`.  The irrational-valued library
  kernels the code calls (`scipy.stats.norm.ppf`, `norm.pdf`, `t.ppf`,
  the square root inside `np.std`, `np.log`, `chi2.cdf`, and the seeded
  `np.random.normal` sampler) are threaded through as abstract function
  parameters, since their exact values never decide a structural claim.
* Quantities whose exact value the claims do inspect but which are
  irrational as floats are carried in an exact representation instead:
  the `volatility` field is carried as its square (`np.std` squared,
  i.e. the population variance, of which the float is the square root),
  and `scipy.stats.skew`, whose float value is `m3 / m2^(3/2)`, is
  carried as the pair `(m3, m2)`.
* Fallible operations (Python `raise`) return `Except VaRError _`.
* The wall-clock `calculation_date` field and the open `additional_stats`
  dictionary are omitted from the result records: no claim inspects them,
  and the date is not a function of the inputs.
-/

namespace HaniwaVaR

/-- Error taxonomy of the engine.  The Python code raises `ValueError`
with distinct messages for the first four; `raggedArray` models the
`ValueError` numpy itself raises when `np.array` / `np.corrcoef` is
applied to rows of unequal length. -/
inductive VaRError
  | emptyInput
  | unsupportedDistribution (tag : String)
  | lengthMismatch
  | emptyPortfolio
  | raggedArray
deriving DecidableEq

/-- A numpy scalar that can be NaN or +inf (used for `scipy.stats.kurtosis`
output and for the Kupiec statistic, which the code can set to `float('inf')`). -/
inductive NpFloat
  | nan
  | inf
  | val (x : ℚ)
deriving DecidableEq

/-- Output of `scipy.stats.skew` (bias=True), represented exactly: the float
the library returns is `m3 / m2 ^ (3/2)` (third central moment over the
second raised to 3/2), which is irrational in general, so we carry the pair.
Modern scipy returns NaN exactly when `m2 = 0` (constant input). -/
structure SkewVal where
  m3 : ℚ
  m2 : ℚ
deriving DecidableEq

/-- The represented skewness float is NaN (constant input, `m2 = 0`). -/
def SkewVal.isNaN (s : SkewVal) : Prop := s.m2 = 0

/-- The represented skewness float is the real number 0: it is defined
(`m2 ≠ 0`) and its numerator `m3` vanishes. -/
def SkewVal.repZero (s : SkewVal) : Prop := s.m2 ≠ 0 ∧ s.m3 = 0

instance (s : SkewVal) : Decidable s.isNaN := by unfold SkewVal.isNaN; infer_instance

instance (s : SkewVal) : Decidable s.repZero := by unfold SkewVal.repZero; infer_instance

/-- `np.mean`: arithmetic mean.  On the empty list numpy yields NaN with a
warning; every call site in the code is guarded by a non-emptiness check
except the Monte Carlo tail mean, whose tail is shown non-empty below. -/
def npMean (xs : List ℚ) : ℚ := xs.sum / xs.length

/-- k-th central moment with the population normalisation `1/n`, the common
kernel of `np.std` (k = 2, before the square root) and of
`scipy.stats.skew` / `scipy.stats.kurtosis` (bias=True). -/
def centralMoment (xs : List ℚ) (k : ℕ) : ℚ :=
  (xs.map (fun x => (x - npMean xs) ^ k)).sum / xs.length

/-- `scipy.stats.skew(xs)` (default bias=True): `m3 / m2^(3/2)`, carried as
the exact pair `(m3, m2)`; NaN when `m2 = 0`. -/
def scipySkew (xs : List ℚ) : SkewVal :=
  { m3 := centralMoment xs 3, m2 := centralMoment xs 2 }

/-- `scipy.stats.kurtosis(xs)` (default fisher=True, bias=True):
`m4 / m2² − 3` (a rational number), NaN on constant input (`m2 = 0`). -/
def scipyKurtosis (xs : List ℚ) : NpFloat :=
  if centralMoment xs 2 = 0 then .nan
  else .val (centralMoment xs 4 / (centralMoment xs 2) ^ 2 - 3)

/-- Linear-interpolation kernel of `np.percentile` (default "linear"
method): for a virtual position `pos` into the ascending-sorted array `s`,
returns `s[i] + (pos − i)·(s[i+1] − s[i])` where `i = ⌊pos⌋`, collapsing to
`s[i]` when `i` is the last index.  Positions outside the array (which
`np.percentile` rejects before reaching this point) return 0. -/
def interpolate (s : List ℚ) (pos : ℚ) : ℚ :=
  if h1 : (⌊pos⌋).toNat + 1 < s.length then
    s.get ⟨(⌊pos⌋).toNat, Nat.lt_of_succ_lt h1⟩ +
      (pos - ((⌊pos⌋).toNat : ℚ)) *
        (s.get ⟨(⌊pos⌋).toNat + 1, h1⟩ - s.get ⟨(⌊pos⌋).toNat, Nat.lt_of_succ_lt h1⟩)
  else if h2 : (⌊pos⌋).toNat < s.length then s.get ⟨(⌊pos⌋).toNat, h2⟩
  else 0

/-- `np.percentile(xs, p)` with the default linear interpolation rule:
virtual position `p/100 · (n − 1)` into the data sorted ascending. -/
def npPercentile (xs : List ℚ) (p : ℚ) : ℚ :=
  interpolate (List.insertionSort (· ≤ ·) xs) (p / 100 * ((xs.length : ℚ) - 1))

/-- The irrational-valued scipy/numpy kernels used by the estimators,
abstracted as rational-valued functions: `norm.ppf`, `t.ppf(·, df)`,
`norm.pdf`, and the square root taken by `np.std`. -/
structure StatKernels where
  normPpf : ℚ → ℚ
  tPpf : ℚ → ℕ → ℚ
  normPdf : ℚ → ℚ
  sqrt : ℚ → ℚ

/-- `VaRResult` dataclass (dates and the open `additional_stats` map
omitted; `volatility` carried squared; skewness carried as a pair — see the
file header). -/
structure VaRResult where
  method : String
  confidence_level : ℚ
  var_value : ℚ
  var_percentage : ℚ
  cvar_value : ℚ
  cvar_percentage : ℚ
  expected_shortfall : ℚ
  portfolio_value : ℚ
  data_points : ℕ
  volatility_sq : ℚ
  skewness : SkewVal
  kurtosis : NpFloat
deriving DecidableEq

/-- One entry of the `np.corrcoef` output, represented exactly: the float
is `cov / (√vi · √vj)` where `cov` is the `np.cov` (ddof = 1) cross entry
and `vi`, `vj` the diagonal variances; NaN when `vi·vj = 0`. -/
structure CorrEntry where
  cov : ℚ
  vi : ℚ
  vj : ℚ
deriving DecidableEq

/-- `PortfolioVaRResult` dataclass (date omitted; volatility squared). -/
structure PortfolioVaRResult where
  individual_vars : List (String × ℚ)
  portfolio_var : ℚ
  diversification_benefit : ℚ
  correlation_matrix : List (List CorrEntry)
  portfolio_volatility_sq : ℚ
deriving DecidableEq

/-- `VaRValidationResult` dataclass (date omitted).  `violation_rate` uses
Lean's total `ℚ` division, so it reads 0 instead of numpy's NaN when both
series are empty; no claim inspects that field.  `expected_violations` uses
the floor, which agrees with Python's truncating `int()` on the
non-negative values arising for confidence ≤ 1. -/
structure VaRValidationResult where
  method : String
  confidence_level : ℚ
  violations : ℕ
  total_observations : ℕ
  violation_rate : ℚ
  expected_violations : ℤ
  kupiec_statistic : NpFloat
  kupiec_p_value : ℚ
  is_model_valid : Bool
deriving DecidableEq

/-- `VaRCalculator.__init__`: the only state is the default portfolio
value (constructor default 1,000,000). -/
structure VaRCalculator where
  portfolio_value : ℚ := 1000000
deriving DecidableEq

/-- Python `portfolio_value or self.portfolio_value`: `None` and `0` (and
`0.0`) are both falsy, so both select the calculator's default. -/
def resolvePortfolioValue (self : VaRCalculator) (pv : Option ℚ) : ℚ :=
  match pv with
  | none => self.portfolio_value
  | some v => if v = 0 then self.portfolio_value else v

/-- `VaRCalculator.calculate_historical_var`. -/
def calculate_historical_var (self : VaRCalculator) (returns : List ℚ)
    (confidence_level : ℚ) (portfolio_value : Option ℚ) :
    Except VaRError VaRResult :=
  if returns = [] then .error .emptyInput
  else
    let portfolio_val := resolvePortfolioValue self portfolio_value
    let percentile := (1 - confidence_level) * 100
    let var_return := npPercentile returns percentile
    let var_value := |var_return * portfolio_val|
    let var_percentage := |var_return| * 100
    let tail_returns := returns.filter (fun x => x ≤ var_return)
    let cvar_return := if tail_returns.length > 0 then npMean tail_returns else var_return
    let cvar_value := if tail_returns.length > 0 then |cvar_return * portfolio_val| else var_value
    let cvar_percentage := if tail_returns.length > 0 then |cvar_return| * 100 else var_percentage
    .ok {
      method := "Historical VaR"
      confidence_level := confidence_level
      var_value := var_value
      var_percentage := var_percentage
      cvar_value := cvar_value
      cvar_percentage := cvar_percentage
      expected_shortfall := cvar_value
      portfolio_value := portfolio_val
      data_points := returns.length
      volatility_sq := centralMoment returns 2
      skewness := scipySkew returns
      kurtosis := scipyKurtosis returns }

/-- `VaRCalculator.calculate_parametric_var`.  The distribution selector is
the string tag of the source (`"normal"` / `"t"`); `distribution.title()`
in the method name is pre-applied in each branch. -/
def calculate_parametric_var (k : StatKernels) (self : VaRCalculator)
    (returns : List ℚ) (confidence_level : ℚ) (distribution : String)
    (portfolio_value : Option ℚ) : Except VaRError VaRResult :=
  if returns = [] then .error .emptyInput
  else
    let portfolio_val := resolvePortfolioValue self portfolio_value
    let mean_return := npMean returns
    let vol := k.sqrt (centralMoment returns 2)
    let build : String → ℚ → ℚ → Except VaRError VaRResult :=
      fun methodName var_return cvar_return =>
      Except.ok
        { method := methodName
          confidence_level := confidence_level
          var_value := |var_return * portfolio_val|
          var_percentage := |var_return| * 100
          cvar_value := |cvar_return * portfolio_val|
          cvar_percentage := |cvar_return| * 100
          expected_shortfall := |cvar_return * portfolio_val|
          portfolio_value := portfolio_val
          data_points := returns.length
          volatility_sq := centralMoment returns 2
          skewness := scipySkew returns
          kurtosis := scipyKurtosis returns }
    if distribution = "normal" then
      let z_score := k.normPpf (1 - confidence_level)
      let var_return := mean_return + z_score * vol
      let cvar_return :=
        mean_return - vol * k.normPdf (k.normPpf (1 - confidence_level)) / (1 - confidence_level)
      build "Parametric VaR (Normal)" var_return cvar_return
    else if distribution = "t" then
      let df := returns.length - 1
      let t_score := k.tPpf (1 - confidence_level) df
      let var_return := mean_return + t_score * vol
      let cvar_return := var_return * (12 / 10)
      build "Parametric VaR (T)" var_return cvar_return
    else
      .error (.unsupportedDistribution distribution)

/-- `VaRCalculator.calculate_monte_carlo_var`.  `rng mean std count` stands
for the draws of `np.random.normal(mean, std, count)` under the fixed seed
42, a pure function of its arguments.  The tail mean is unguarded, as in
the source (numpy would produce NaN on an empty tail; Lean's total `ℚ`
division yields 0 there). -/
def calculate_monte_carlo_var (k : StatKernels) (rng : ℚ → ℚ → ℕ → List ℚ)
    (self : VaRCalculator) (returns : List ℚ) (confidence_level : ℚ)
    (simulations : ℕ) (portfolio_value : Option ℚ) :
    Except VaRError VaRResult :=
  if returns = [] then .error .emptyInput
  else
    let portfolio_val := resolvePortfolioValue self portfolio_value
    let mean_return := npMean returns
    let vol := k.sqrt (centralMoment returns 2)
    let simulated_returns := rng mean_return vol simulations
    let percentile := (1 - confidence_level) * 100
    let var_return := npPercentile simulated_returns percentile
    let var_value := |var_return * portfolio_val|
    let var_percentage := |var_return| * 100
    let tail_returns := simulated_returns.filter (fun x => x ≤ var_return)
    let cvar_return := npMean tail_returns
    let cvar_value := |cvar_return * portfolio_val|
    let cvar_percentage := |cvar_return| * 100
    .ok {
      method := "Monte Carlo VaR"
      confidence_level := confidence_level
      var_value := var_value
      var_percentage := var_percentage
      cvar_value := cvar_value
      cvar_percentage := cvar_percentage
      expected_shortfall := cvar_value
      portfolio_value := portfolio_val
      data_points := returns.length
      volatility_sq := centralMoment returns 2
      skewness := scipySkew returns
      kurtosis := scipyKurtosis returns }

/-- The hybrid weight dictionary; the code reads exactly the keys
`"historical"`, `"parametric"`, `"monte_carlo"`. -/
structure HybridWeights where
  historical : ℚ
  parametric : ℚ
  monte_carlo : ℚ
deriving DecidableEq

/-- `VaRCalculator.calculate_hybrid_var`: weighted blend of the three
estimators (Monte Carlo run with 5,000 simulations), default weights
{0.4, 0.3, 0.3}. -/
def calculate_hybrid_var (k : StatKernels) (rng : ℚ → ℚ → ℕ → List ℚ)
    (self : VaRCalculator) (returns : List ℚ) (confidence_level : ℚ)
    (weights : Option HybridWeights) (portfolio_value : Option ℚ) :
    Except VaRError VaRResult :=
  if returns = [] then .error .emptyInput
  else
    let w := weights.getD { historical := 4/10, parametric := 3/10, monte_carlo := 3/10 }
    match calculate_historical_var self returns confidence_level portfolio_value with
    | .error e => .error e
    | .ok hist_var =>
    match calculate_parametric_var k self returns confidence_level "normal" portfolio_value with
    | .error e => .error e
    | .ok param_var =>
    match calculate_monte_carlo_var k rng self returns confidence_level 5000 portfolio_value with
    | .error e => .error e
    | .ok mc_var =>
    let hybrid_var_value :=
      w.historical * hist_var.var_value + w.parametric * param_var.var_value +
        w.monte_carlo * mc_var.var_value
    let hybrid_cvar_value :=
      w.historical * hist_var.cvar_value + w.parametric * param_var.cvar_value +
        w.monte_carlo * mc_var.cvar_value
    let portfolio_val := resolvePortfolioValue self portfolio_value
    .ok {
      method := "Hybrid VaR"
      confidence_level := confidence_level
      var_value := hybrid_var_value
      var_percentage := hybrid_var_value / portfolio_val * 100
      cvar_value := hybrid_cvar_value
      cvar_percentage := hybrid_cvar_value / portfolio_val * 100
      expected_shortfall := hybrid_cvar_value
      portfolio_value := portfolio_val
      data_points := returns.length
      volatility_sq := centralMoment returns 2
      skewness := scipySkew returns
      kurtosis := scipyKurtosis returns }

/-- `np.cov(x, y)` cross entry with the default ddof = 1 normalisation. -/
def npCov (x y : List ℚ) : ℚ :=
  (List.zipWith (fun a b => (a - npMean x) * (b - npMean y)) x y).sum /
    ((x.length : ℚ) - 1)

/-- One `np.corrcoef` entry for rows `x`, `y`, in the exact representation
of `CorrEntry`. -/
def corrEntry (x y : List ℚ) : CorrEntry :=
  { cov := npCov x y, vi := npCov x x, vj := npCov y y }

/-- `np.corrcoef(rows)`: defined on a rectangular row matrix; on ragged
rows, `np.array` raises `ValueError` (inhomogeneous shape) before any
correlation is computed — the source never truncates the rows first. -/
def npCorrcoef (rows : List (List ℚ)) :
    Except VaRError (List (List CorrEntry)) :=
  if rows.all (fun r => r.length = (rows.headD []).length) then
    .ok (rows.map (fun x => rows.map (fun y => corrEntry x y)))
  else .error .raggedArray

/-- Sequential effectful map, modelling the Python `for` loop over the
assets dictionary: computations run in order and the first raised
exception aborts the whole call. -/
def mapExcept {α β : Type} (f : α → Except VaRError β) :
    List α → Except VaRError (List β)
  | [] => .ok []
  | x :: xs =>
    match f x with
    | .error e => .error e
    | .ok y =>
      match mapExcept f xs with
      | .error e => .error e
      | .ok ys => .ok (y :: ys)

/-- Python `min` over a non-empty list (the code takes it over the
generator of series lengths). -/
def listMin (l : List ℕ) : ℕ := l.foldr min (l.headD 0)

/-- Loop body of `calculate_portfolio_var`'s per-asset pass: the asset's
individual VaR at the slice `portfolio_val × weight` of the portfolio
value, dispatched on the method tag exactly as the source's if/else. -/
def portfolioStep (k : StatKernels) (self : VaRCalculator) (confidence_level : ℚ)
    (method : String) (portfolio_val : ℚ) (weights : String → ℚ)
    (p : String × List ℚ) : Except VaRError (String × ℚ) :=
  match (if method = "historical" then
           calculate_historical_var self p.2 confidence_level
             (some (portfolio_val * weights p.1))
         else
           calculate_parametric_var k self p.2 confidence_level "normal"
             (some (portfolio_val * weights p.1))) with
  | .error e => .error e
  | .ok r => .ok (p.1, r.var_value)

/-- The weighted portfolio return series of `calculate_portfolio_var`:
period-by-period weight-sum over the shortest common window. -/
def portfolioReturns (assets_returns : List (String × List ℚ))
    (weights : String → ℚ) : List ℚ :=
  (List.range (listMin (assets_returns.map (fun p => p.2.length)))).map (fun i =>
    (assets_returns.map (fun p => weights p.1 * p.2.getD i 0)).sum)

/-- `VaRCalculator.calculate_portfolio_var`.  Assets are an association
list (Python dict preserving insertion order); `weights` is a total map
(the code would raise `KeyError` on a missing key).  Note the correlation
matrix is taken over the raw rows before any truncation; the
`min_length` window is applied only to the portfolio return series. -/
def calculate_portfolio_var (k : StatKernels) (self : VaRCalculator)
    (assets_returns : List (String × List ℚ)) (weights : String → ℚ)
    (confidence_level : ℚ) (method : String) (portfolio_value : Option ℚ) :
    Except VaRError PortfolioVaRResult :=
  if assets_returns = [] then .error .emptyPortfolio
  else
    match mapExcept (portfolioStep k self confidence_level method
        (resolvePortfolioValue self portfolio_value) weights) assets_returns with
    | .error e => .error e
    | .ok individual_vars =>
    match npCorrcoef (assets_returns.map (fun p => p.2)) with
    | .error e => .error e
    | .ok correlation_matrix =>
    match (if method = "historical" then
             calculate_historical_var self (portfolioReturns assets_returns weights)
               confidence_level (some (resolvePortfolioValue self portfolio_value))
           else
             calculate_parametric_var k self (portfolioReturns assets_returns weights)
               confidence_level "normal"
               (some (resolvePortfolioValue self portfolio_value))) with
    | .error e => .error e
    | .ok portfolio_var_result =>
    .ok {
      individual_vars := individual_vars
      portfolio_var := portfolio_var_result.var_value
      diversification_benefit :=
        (individual_vars.map (fun p => p.2)).sum - portfolio_var_result.var_value
      correlation_matrix := correlation_matrix
      portfolio_volatility_sq :=
        centralMoment (portfolioReturns assets_returns weights) 2 }

/-- `VaRCalculator.validate_var_model` (Kupiec backtest).  `log` and
`chi2cdf` stand for `np.log` and `scipy.stats.chi2.cdf(·, df = 1)`. -/
def validate_var_model (log chi2cdf : ℚ → ℚ) (returns var_estimates : List ℚ)
    (confidence_level : ℚ) (method : String) :
    Except VaRError VaRValidationResult :=
  if returns.length ≠ var_estimates.length then .error .lengthMismatch
  else
    let violations := (returns.zip var_estimates).countP (fun p => decide (p.1 < -p.2))
    let total_observations := returns.length
    let violation_rate := (violations : ℚ) / (total_observations : ℚ)
    let expected_violations := ⌊(total_observations : ℚ) * (1 - confidence_level)⌋
    let statP :=
      if violations = 0 then (NpFloat.val 0, (1 : ℚ))
      else
        let p_observed := violation_rate
        let p_expected := 1 - confidence_level
        if 0 < p_observed ∧ p_observed < 1 then
          let lr := 2 * ((violations : ℚ) * log (p_observed / p_expected) +
            ((total_observations : ℚ) - (violations : ℚ)) *
              log ((1 - p_observed) / (1 - p_expected)))
          (NpFloat.val lr, 1 - chi2cdf lr)
        else (NpFloat.inf, 0)
    .ok {
      method := method
      confidence_level := confidence_level
      violations := violations
      total_observations := total_observations
      violation_rate := violation_rate
      expected_violations := expected_violations
      kupiec_statistic := statP.1
      kupiec_p_value := statP.2
      is_model_valid := decide (statP.2 > 5 / 100) }

/-- Whether a fallible call produced a result. -/
def isOk {α : Type} (e : Except VaRError α) : Bool :=
  match e with
  | .ok _ => true
  | .error _ => false

/-- The error of a failed call, if any. -/
def errOf {α : Type} (e : Except VaRError α) : Option VaRError :=
  match e with
  | .ok _ => none
  | .error err => some err

/-- `var_value` of a successful estimator call (0 on error). -/
def varOf (e : Except VaRError VaRResult) : ℚ :=
  match e with
  | .ok r => r.var_value
  | .error _ => 0

/-- `var_percentage` of a successful estimator call (0 on error). -/
def varPctOf (e : Except VaRError VaRResult) : ℚ :=
  match e with
  | .ok r => r.var_percentage
  | .error _ => 0

/-- `cvar_value` of a successful estimator call (0 on error). -/
def cvarOf (e : Except VaRError VaRResult) : ℚ :=
  match e with
  | .ok r => r.cvar_value
  | .error _ => 0

/-- Squared volatility of a successful estimator call. -/
def volSqOf (e : Except VaRError VaRResult) : Option ℚ :=
  match e with
  | .ok r => some r.volatility_sq
  | .error _ => none

/-- Skewness of a successful estimator call. -/
def skewOf (e : Except VaRError VaRResult) : Option SkewVal :=
  match e with
  | .ok r => some r.skewness
  | .error _ => none

/-- Kurtosis of a successful estimator call. -/
def kurtOf (e : Except VaRError VaRResult) : Option NpFloat :=
  match e with
  | .ok r => some r.kurtosis
  | .error _ => none

/-- Kupiec statistic of a successful validation call. -/
def kupiecStatOf (e : Except VaRError VaRValidationResult) : Option NpFloat :=
  match e with
  | .ok r => some r.kupiec_statistic
  | .error _ => none

/-- Kupiec p-value of a successful validation call. -/
def kupiecPOf (e : Except VaRError VaRValidationResult) : Option ℚ :=
  match e with
  | .ok r => some r.kupiec_p_value
  | .error _ => none

/-- Validity verdict of a successful validation call. -/
def validOf (e : Except VaRError VaRValidationResult) : Option Bool :=
  match e with
  | .ok r => some r.is_model_valid
  | .error _ => none

/-- Individual VaR mapping of a successful portfolio call ([] on error). -/
def individualsOf (e : Except VaRError PortfolioVaRResult) : List (String × ℚ) :=
  match e with
  | .ok r => r.individual_vars
  | .error _ => []

/-! ### Helper lemmas about the percentile interpolation kernel -/

lemma floor_toNat_cast {pos : ℚ} (h : 0 ≤ pos) : ((⌊pos⌋.toNat : ℚ)) = (⌊pos⌋ : ℚ) := by
  have h0 : (0 : ℤ) ≤ ⌊pos⌋ := Int.floor_nonneg.mpr h
  exact_mod_cast congrArg (Int.cast : ℤ → ℚ) (Int.toNat_of_nonneg h0)

lemma frac_nonneg {pos : ℚ} (h : 0 ≤ pos) : 0 ≤ pos - (⌊pos⌋.toNat : ℚ) := by
  rw [floor_toNat_cast h]
  linarith [Int.floor_le pos]

lemma frac_lt_one {pos : ℚ} (h : 0 ≤ pos) : pos - (⌊pos⌋.toNat : ℚ) < 1 := by
  rw [floor_toNat_cast h]
  linarith [Int.lt_floor_add_one pos]

lemma sorted_get_mono {s : List ℚ} (hs : s.Sorted (· ≤ ·)) {i j : ℕ} (hij : i ≤ j)
    (hj : j < s.length) : s.get ⟨i, lt_of_le_of_lt hij hj⟩ ≤ s.get ⟨j, hj⟩ :=
  hs.rel_get_of_le (show (⟨i, lt_of_le_of_lt hij hj⟩ : Fin s.length) ≤ ⟨j, hj⟩ from hij)

lemma interpolate_ge_get_floor {s : List ℚ} (hs : s.Sorted (· ≤ ·)) {pos : ℚ}
    (h0 : 0 ≤ pos) (hi : (⌊pos⌋).toNat < s.length) :
    s.get ⟨(⌊pos⌋).toNat, hi⟩ ≤ interpolate s pos := by
  unfold interpolate
  by_cases h1 : (⌊pos⌋).toNat + 1 < s.length
  · rw [dif_pos h1]
    have hab : s.get ⟨(⌊pos⌋).toNat, hi⟩ ≤ s.get ⟨(⌊pos⌋).toNat + 1, h1⟩ :=
      sorted_get_mono hs (Nat.le_succ _) h1
    have hmul := mul_nonneg (frac_nonneg h0) (sub_nonneg.mpr hab)
    linarith
  · rw [dif_neg h1, dif_pos hi]

lemma interpolate_le_get_succ {s : List ℚ} (hs : s.Sorted (· ≤ ·)) {pos : ℚ}
    (h0 : 0 ≤ pos) (h1 : (⌊pos⌋).toNat + 1 < s.length) :
    interpolate s pos ≤ s.get ⟨(⌊pos⌋).toNat + 1, h1⟩ := by
  unfold interpolate
  rw [dif_pos h1]
  have hab : s.get ⟨(⌊pos⌋).toNat, Nat.lt_of_succ_lt h1⟩ ≤ s.get ⟨(⌊pos⌋).toNat + 1, h1⟩ :=
    sorted_get_mono hs (Nat.le_succ _) h1
  have hmul := mul_nonneg (by linarith [frac_lt_one h0] : (0:ℚ) ≤ 1 - (pos - (⌊pos⌋.toNat : ℚ)))
    (sub_nonneg.mpr hab)
  nlinarith

lemma interpolate_mono {s : List ℚ} (hs : s.Sorted (· ≤ ·)) {pos pos' : ℚ}
    (h0 : 0 ≤ pos) (hle : pos ≤ pos') (hub : pos' ≤ (s.length : ℚ) - 1) :
    interpolate s pos ≤ interpolate s pos' := by
  have h0' : 0 ≤ pos' := le_trans h0 hle
  have hi'lt : (⌊pos'⌋).toNat < s.length := by
    have hc : ((⌊pos'⌋.toNat : ℚ)) < (s.length : ℚ) := by
      rw [floor_toNat_cast h0']
      linarith [Int.floor_le pos']
    exact_mod_cast hc
  have hilt : (⌊pos⌋).toNat ≤ (⌊pos'⌋).toNat :=
    Int.toNat_le_toNat (Int.floor_mono hle)
  rcases Nat.lt_or_ge (⌊pos⌋).toNat (⌊pos'⌋).toNat with hlt | hge
  · have h1 : (⌊pos⌋).toNat + 1 < s.length := Nat.lt_of_le_of_lt (Nat.succ_le_of_lt hlt) hi'lt
    calc interpolate s pos ≤ s.get ⟨(⌊pos⌋).toNat + 1, h1⟩ := interpolate_le_get_succ hs h0 h1
      _ ≤ s.get ⟨(⌊pos'⌋).toNat, hi'lt⟩ := sorted_get_mono hs (Nat.succ_le_of_lt hlt) hi'lt
      _ ≤ interpolate s pos' := interpolate_ge_get_floor hs h0' hi'lt
  · have hieq : (⌊pos⌋).toNat = (⌊pos'⌋).toNat := le_antisymm hilt hge
    unfold interpolate
    simp only [hieq]
    by_cases h1 : (⌊pos'⌋).toNat + 1 < s.length
    · rw [dif_pos h1, dif_pos h1]
      have hab : s.get ⟨(⌊pos'⌋).toNat, Nat.lt_of_succ_lt h1⟩ ≤ s.get ⟨(⌊pos'⌋).toNat + 1, h1⟩ :=
        sorted_get_mono hs (Nat.le_succ _) h1
      have hfle : pos - ((⌊pos'⌋).toNat : ℚ) ≤ pos' - ((⌊pos'⌋).toNat : ℚ) := by linarith
      have := mul_le_mul_of_nonneg_right hfle (sub_nonneg.mpr hab)
      linarith
    · rw [dif_neg h1, dif_neg h1]

lemma length_insertionSort (xs : List ℚ) :
    (List.insertionSort (· ≤ ·) xs).length = xs.length :=
  (List.perm_insertionSort _ _).length_eq

lemma npPercentile_mono {xs : List ℚ} (hne : xs ≠ []) {p p' : ℚ}
    (h0 : 0 ≤ p) (hpp : p ≤ p') (hub : p' ≤ 100) :
    npPercentile xs p ≤ npPercentile xs p' := by
  unfold npPercentile
  have hlen : 1 ≤ xs.length := List.length_pos.mpr hne
  have hlenq : (1 : ℚ) ≤ (xs.length : ℚ) := by exact_mod_cast hlen
  apply interpolate_mono (List.sorted_insertionSort _ _)
  · exact mul_nonneg (div_nonneg h0 (by norm_num)) (by linarith)
  · have : p / 100 ≤ p' / 100 := by linarith
    have hnn : (0 : ℚ) ≤ (xs.length : ℚ) - 1 := by linarith
    exact mul_le_mul_of_nonneg_right this hnn
  · rw [length_insertionSort]
    have h100 : p' / 100 ≤ 1 := by linarith
    have hnn : (0 : ℚ) ≤ (xs.length : ℚ) - 1 := by linarith
    calc p' / 100 * ((xs.length : ℚ) - 1) ≤ 1 * ((xs.length : ℚ) - 1) :=
          mul_le_mul_of_nonneg_right h100 hnn
      _ = (xs.length : ℚ) - 1 := one_mul _

lemma exists_min_le_npPercentile {xs : List ℚ} (hne : xs ≠ []) {p : ℚ}
    (h0 : 0 ≤ p) (hub : p ≤ 100) :
    ∃ m ∈ xs, (∀ y ∈ xs, m ≤ y) ∧ m ≤ npPercentile xs p := by
  have hlen : 1 ≤ xs.length := List.length_pos.mpr hne
  have hlenq : (1 : ℚ) ≤ (xs.length : ℚ) := by exact_mod_cast hlen
  have hslen : 0 < (List.insertionSort (· ≤ ·) xs).length := by
    rw [length_insertionSort]; omega
  refine ⟨(List.insertionSort (· ≤ ·) xs).get ⟨0, hslen⟩, ?_, ?_, ?_⟩
  · rw [← List.mem_insertionSort (· ≤ ·)]
    exact List.get_mem _ _ _
  · intro y hy
    rw [← List.mem_insertionSort (· ≤ ·)] at hy
    obtain ⟨j, hj⟩ := List.mem_iff_get.mp hy
    calc (List.insertionSort (· ≤ ·) xs).get ⟨0, hslen⟩
        ≤ (List.insertionSort (· ≤ ·) xs).get ⟨j.1, j.2⟩ :=
          sorted_get_mono (List.sorted_insertionSort _ _) (Nat.zero_le _) j.2
      _ = y := by rw [← hj]
  · unfold npPercentile
    have hpos0 : 0 ≤ p / 100 * ((xs.length : ℚ) - 1) :=
      mul_nonneg (div_nonneg h0 (by norm_num)) (by linarith)
    have hilt : (⌊p / 100 * ((xs.length : ℚ) - 1)⌋).toNat <
        (List.insertionSort (· ≤ ·) xs).length := by
      rw [length_insertionSort]
      have hc : ((⌊p / 100 * ((xs.length : ℚ) - 1)⌋.toNat : ℚ)) < (xs.length : ℚ) := by
        rw [floor_toNat_cast hpos0]
        have h100 : p / 100 ≤ 1 := by linarith
        have hnn : (0 : ℚ) ≤ (xs.length : ℚ) - 1 := by linarith
        have hub2 : p / 100 * ((xs.length : ℚ) - 1) ≤ (xs.length : ℚ) - 1 := by
          calc p / 100 * ((xs.length : ℚ) - 1) ≤ 1 * ((xs.length : ℚ) - 1) :=
                mul_le_mul_of_nonneg_right h100 hnn
            _ = (xs.length : ℚ) - 1 := one_mul _
        linarith [Int.floor_le (p / 100 * ((xs.length : ℚ) - 1))]
      exact_mod_cast hc
    calc (List.insertionSort (· ≤ ·) xs).get ⟨0, hslen⟩
        ≤ (List.insertionSort (· ≤ ·) xs).get ⟨_, hilt⟩ :=
          sorted_get_mono (List.sorted_insertionSort _ _) (Nat.zero_le _) hilt
      _ ≤ interpolate (List.insertionSort (· ≤ ·) xs) (p / 100 * ((xs.length : ℚ) - 1)) :=
          interpolate_ge_get_floor (List.sorted_insertionSort _ _) hpos0 hilt

lemma npMean_le_of_forall_le {l : List ℚ} {q : ℚ} (hne : l ≠ [])
    (h : ∀ x ∈ l, x ≤ q) : npMean l ≤ q := by
  have hlen : 0 < l.length := List.length_pos.mpr hne
  have hlenq : (0 : ℚ) < (l.length : ℚ) := by exact_mod_cast hlen
  have hsum : l.sum ≤ l.length • q := List.sum_le_card_nsmul l q h
  rw [nsmul_eq_mul] at hsum
  rw [npMean, div_le_iff₀ hlenq]
  linarith

/-! ### Claim theorems -/

/-- C1: for the historical estimator called with the returns
`[-0.05, -0.03, -0.01, 0.01, 0.02, 0.03, -0.02, 0.01, -0.01, 0.02]`,
confidence level 0.95 and portfolio value 1,000,000, the linear-interpolation
percentile rule yields quantile q = −0.041, `var_percentage` = 4.1 and
`var_value` = 41,000 (exactly, in the rational model). -/
theorem claim_C1 :
    npPercentile [-5/100, -3/100, -1/100, 1/100, 2/100, 3/100, -2/100, 1/100, -1/100, 2/100]
        ((1 - 95/100) * 100) = -41/1000 ∧
    varPctOf (calculate_historical_var {} [-5/100, -3/100, -1/100, 1/100, 2/100, 3/100,
        -2/100, 1/100, -1/100, 2/100] (95/100) (some 1000000)) = 41/10 ∧
    varOf (calculate_historical_var {} [-5/100, -3/100, -1/100, 1/100, 2/100, 3/100,
        -2/100, 1/100, -1/100, 2/100] (95/100) (some 1000000)) = 41000 := by
  refine ⟨?_, ?_, ?_⟩
  · norm_num [npPercentile, interpolate, List.insertionSort, List.orderedInsert]
  · rw [calculate_historical_var, if_neg (by simp : ¬([-5/100, -3/100, -1/100, 1/100, 2/100,
      3/100, -2/100, 1/100, -1/100, (2:ℚ)/100] = []))]
    norm_num [varPctOf, resolvePortfolioValue, npPercentile, interpolate,
      List.insertionSort, List.orderedInsert, abs]
  · rw [calculate_historical_var, if_neg (by simp : ¬([-5/100, -3/100, -1/100, 1/100, 2/100,
      3/100, -2/100, 1/100, -1/100, (2:ℚ)/100] = []))]
    norm_num [varOf, resolvePortfolioValue, npPercentile, interpolate,
      List.insertionSort, List.orderedInsert, abs]

/-- C2 (counterexample): for the all-positive return series [0.01, 0.03] at
the standard confidence level 0.95 the historical estimator's CVaR tail set
is non-empty, yet `cvar_value` (10,000) is strictly below `var_value`
(11,000), refuting the unconditional tail-ordering invariant. -/
theorem claim_C2_counterexample :
    isOk (calculate_historical_var {} [1/100, 3/100] (95/100) none) = true ∧
    [(1:ℚ)/100, 3/100].filter
      (fun x => x ≤ npPercentile [1/100, 3/100] ((1 - 95/100) * 100)) ≠ [] ∧
    cvarOf (calculate_historical_var {} [1/100, 3/100] (95/100) none) <
      varOf (calculate_historical_var {} [1/100, 3/100] (95/100) none) := by
  refine ⟨?_, ?_, ?_⟩
  · rw [calculate_historical_var, if_neg (by simp : ¬([1/100, (3:ℚ)/100] = []))]
    norm_num [isOk]
  · norm_num [npPercentile, interpolate, List.insertionSort, List.orderedInsert,
      List.filter_cons]
  · rw [calculate_historical_var, if_neg (by simp : ¬([1/100, (3:ℚ)/100] = []))]
    norm_num [varOf, cvarOf, resolvePortfolioValue, npPercentile, interpolate,
      List.insertionSort, List.orderedInsert, List.filter_cons, npMean, abs]

/-- C2 (amended): the tail-ordering invariant `cvar_value ≥ var_value` holds
for the historical and Monte Carlo estimators whenever the CVaR tail set is
non-empty AND the interpolated quantile is non-positive (i.e. the quantile
is a loss); the unconditional form fails on all-gain series, see the
counterexample. -/
theorem claim_C2_amended :
    (∀ (self : VaRCalculator) (returns : List ℚ) (c : ℚ) (pv : Option ℚ),
      returns ≠ [] →
      npPercentile returns ((1 - c) * 100) ≤ 0 →
      returns.filter (fun x => x ≤ npPercentile returns ((1 - c) * 100)) ≠ [] →
      varOf (calculate_historical_var self returns c pv) ≤
        cvarOf (calculate_historical_var self returns c pv)) ∧
    (∀ (k : StatKernels) (rng : ℚ → ℚ → ℕ → List ℚ) (self : VaRCalculator)
      (returns : List ℚ) (c : ℚ) (sims : ℕ) (pv : Option ℚ),
      returns ≠ [] →
      npPercentile (rng (npMean returns) (k.sqrt (centralMoment returns 2)) sims)
        ((1 - c) * 100) ≤ 0 →
      (rng (npMean returns) (k.sqrt (centralMoment returns 2)) sims).filter
        (fun x => x ≤ npPercentile (rng (npMean returns)
          (k.sqrt (centralMoment returns 2)) sims) ((1 - c) * 100)) ≠ [] →
      varOf (calculate_monte_carlo_var k rng self returns c sims pv) ≤
        cvarOf (calculate_monte_carlo_var k rng self returns c sims pv)) := by
  constructor
  · intro self returns c pv hne hq htail
    rw [calculate_historical_var, if_neg hne]
    simp only [varOf, cvarOf]
    rw [if_pos (List.length_pos.mpr htail), if_pos (List.length_pos.mpr htail)]
    have hmean : npMean (returns.filter
        (fun x => x ≤ npPercentile returns ((1 - c) * 100))) ≤
        npPercentile returns ((1 - c) * 100) :=
      npMean_le_of_forall_le htail
        (fun x hx => of_decide_eq_true (List.mem_filter.mp hx).2)
    rw [abs_mul, abs_mul]
    apply mul_le_mul_of_nonneg_right _ (abs_nonneg _)
    rw [abs_of_nonpos hq, abs_of_nonpos (le_trans hmean hq)]
    linarith
  · intro k rng self returns c sims pv hne hq htail
    rw [calculate_monte_carlo_var, if_neg hne]
    simp only [varOf, cvarOf]
    have hmean : npMean ((rng (npMean returns)
        (k.sqrt (centralMoment returns 2)) sims).filter
        (fun x => x ≤ npPercentile (rng (npMean returns)
          (k.sqrt (centralMoment returns 2)) sims) ((1 - c) * 100))) ≤
        npPercentile (rng (npMean returns)
          (k.sqrt (centralMoment returns 2)) sims) ((1 - c) * 100) :=
      npMean_le_of_forall_le htail
        (fun x hx => of_decide_eq_true (List.mem_filter.mp hx).2)
    rw [abs_mul, abs_mul]
    apply mul_le_mul_of_nonneg_right _ (abs_nonneg _)
    rw [abs_of_nonpos hq, abs_of_nonpos (le_trans hmean hq)]
    linarith

/-- C2 (witness): the amended tail-ordering theorem instantiated on the
series [−0.01, 0.01] at confidence 0.95 (interpolated quantile −0.009 ≤ 0,
tail {−0.01} non-empty). -/
theorem claim_C2_witness :
    varOf (calculate_historical_var {} [-1/100, 1/100] (95/100) none) ≤
      cvarOf (calculate_historical_var {} [-1/100, 1/100] (95/100) none) := by
  apply claim_C2_amended.1 {} [-1/100, 1/100] (95/100) none (by simp)
  · norm_num [npPercentile, interpolate, List.insertionSort, List.orderedInsert]
  · norm_num [npPercentile, interpolate, List.insertionSort, List.orderedInsert,
      List.filter_cons]

/-- C4 (counterexample): on the all-positive series [0.01, 0.02] with
confidence levels 0.1 < 0.9 the historical `var_value` is 19,000 at the
lower confidence but only 11,000 at the higher one, refuting unconditional
monotonicity in the confidence level. -/
theorem claim_C4_counterexample :
    (1 : ℚ)/10 < 9/10 ∧
    ¬ (varOf (calculate_historical_var {} [1/100, 2/100] (1/10) none) ≤
       varOf (calculate_historical_var {} [1/100, 2/100] (9/10) none)) := by
  constructor
  · norm_num
  · rw [calculate_historical_var, if_neg (by simp : ¬([1/100, (2:ℚ)/100] = [])),
      calculate_historical_var, if_neg (by simp : ¬([1/100, (2:ℚ)/100] = []))]
    norm_num [varOf, resolvePortfolioValue, npPercentile, interpolate,
      List.insertionSort, List.orderedInsert, abs]

/-- C4 (amended): for a fixed non-empty return series and portfolio value,
and confidence levels 0 < c1 < c2 < 1, the historical `var_value` is
monotone (var(c1) ≤ var(c2)) provided the interpolated quantile at the
lower confidence c1 is non-positive; the unconditional form fails on
all-gain series, see the counterexample. -/
theorem claim_C4_amended (self : VaRCalculator) (returns : List ℚ) (c1 c2 : ℚ)
    (pv : Option ℚ) (hne : returns ≠ []) (h0 : 0 < c1) (h12 : c1 < c2) (h1 : c2 < 1)
    (hq : npPercentile returns ((1 - c1) * 100) ≤ 0) :
    varOf (calculate_historical_var self returns c1 pv) ≤
      varOf (calculate_historical_var self returns c2 pv) := by
  rw [calculate_historical_var, if_neg hne, calculate_historical_var, if_neg hne]
  simp only [varOf]
  have hq21 : npPercentile returns ((1 - c2) * 100) ≤
      npPercentile returns ((1 - c1) * 100) :=
    @npPercentile_mono returns hne ((1 - c2) * 100) ((1 - c1) * 100)
      (by linarith) (by linarith) (by linarith)
  rw [abs_mul, abs_mul]
  apply mul_le_mul_of_nonneg_right _ (abs_nonneg _)
  rw [abs_of_nonpos hq, abs_of_nonpos (le_trans hq21 hq)]
  linarith

/-- C4 (witness): the amended monotonicity theorem instantiated on the
series [−0.02, 0.01] with c1 = 0.6, c2 = 0.9 (quantile at c1 is
−0.008 ≤ 0). -/
theorem claim_C4_witness :
    varOf (calculate_historical_var {} [-2/100, 1/100] (6/10) none) ≤
      varOf (calculate_historical_var {} [-2/100, 1/100] (9/10) none) := by
  apply claim_C4_amended {} [-2/100, 1/100] (6/10) (9/10) none (by simp)
    (by norm_num) (by norm_num) (by norm_num)
  norm_num [npPercentile, interpolate, List.insertionSort, List.orderedInsert]

/-- C9: for every non-empty series and confidence level in (0,1), the
linearly interpolated percentile is at least the minimum element, so the
CVaR tail set `{x ∈ series : x ≤ q}` contains the minimum and is non-empty
— hence the historical estimator's empty-tail fallback branch is
unreachable and the Monte Carlo tail mean (applied to the non-empty
simulated sample) never averages an empty set. -/
theorem claim_C9 (xs : List ℚ) (c : ℚ) (hne : xs ≠ []) (h0 : 0 < c) (h1 : c < 1) :
    ∃ m ∈ xs, (∀ y ∈ xs, m ≤ y) ∧ m ≤ npPercentile xs ((1 - c) * 100) ∧
      xs.filter (fun x => x ≤ npPercentile xs ((1 - c) * 100)) ≠ [] := by
  obtain ⟨m, hm, hmin, hle⟩ :=
    @exists_min_le_npPercentile xs hne ((1 - c) * 100) (by linarith) (by linarith)
  refine ⟨m, hm, hmin, hle, ?_⟩
  exact List.ne_nil_of_mem (List.mem_filter.mpr ⟨hm, decide_eq_true hle⟩)

/-- C9 (witness): the non-empty-tail theorem instantiated on the series
[0.02, 0.01] at confidence 0.5. -/
theorem claim_C9_witness :
    ∃ m ∈ [(2:ℚ)/100, 1/100], (∀ y ∈ [(2:ℚ)/100, 1/100], m ≤ y) ∧
      m ≤ npPercentile [2/100, 1/100] ((1 - 5/10) * 100) ∧
      [(2:ℚ)/100, 1/100].filter
        (fun x => x ≤ npPercentile [2/100, 1/100] ((1 - 5/10) * 100)) ≠ [] :=
  claim_C9 [2/100, 1/100] (5/10) (by simp) (by norm_num) (by norm_num)

/-! ### Constant-series statistics -/

lemma npMean_const {l : List ℚ} {a : ℚ} (hne : l ≠ []) (h : ∀ x ∈ l, x = a) :
    npMean l = a := by
  have hlen : 0 < l.length := List.length_pos.mpr hne
  have hlenq : (0 : ℚ) < (l.length : ℚ) := by exact_mod_cast hlen
  rw [npMean, List.sum_eq_card_nsmul l a h, nsmul_eq_mul]
  field_simp

lemma centralMoment_const {l : List ℚ} {a : ℚ} {k : ℕ} (hne : l ≠ []) (hk : k ≠ 0)
    (h : ∀ x ∈ l, x = a) : centralMoment l k = 0 := by
  rw [centralMoment]
  have hz : (l.map (fun x => (x - npMean l) ^ k)).sum = 0 := by
    apply List.sum_eq_zero
    intro y hy
    obtain ⟨x, hx, rfl⟩ := List.mem_map.mp hy
    rw [h x hx, npMean_const hne h, sub_self, zero_pow hk]
  rw [hz, zero_div]

/-- C3: if the two series have equal length and no period's realized return
falls below the negated VaR estimate (zero violations), the Kupiec backtest
returns statistic 0, p-value 1 and a valid-model verdict. -/
theorem claim_C3 (log chi2cdf : ℚ → ℚ) (returns ests : List ℚ) (c : ℚ) (m : String)
    (hlen : returns.length = ests.length)
    (hnov : ∀ p ∈ returns.zip ests, ¬ (p.1 < -p.2)) :
    kupiecStatOf (validate_var_model log chi2cdf returns ests c m) =
      some (NpFloat.val 0) ∧
    kupiecPOf (validate_var_model log chi2cdf returns ests c m) = some 1 ∧
    validOf (validate_var_model log chi2cdf returns ests c m) = some true := by
  have hcount : (returns.zip ests).countP (fun p => decide (p.1 < -p.2)) = 0 :=
    List.countP_eq_zero.mpr (fun a ha => by simpa using hnov a ha)
  rw [validate_var_model, if_neg (not_ne_iff.mpr hlen)]
  simp only [kupiecStatOf, kupiecPOf, validOf, hcount]
  norm_num

/-- C3 (witness): the zero-violation Kupiec theorem instantiated on the
realized returns [0.01, −0.01] against the constant VaR estimate series
[0.05, 0.05] (no violations). -/
theorem claim_C3_witness :
    kupiecStatOf (validate_var_model (fun _ => 0) (fun _ => 0) [1/100, -1/100]
      [5/100, 5/100] (95/100) "historical") = some (NpFloat.val 0) ∧
    kupiecPOf (validate_var_model (fun _ => 0) (fun _ => 0) [1/100, -1/100]
      [5/100, 5/100] (95/100) "historical") = some 1 ∧
    validOf (validate_var_model (fun _ => 0) (fun _ => 0) [1/100, -1/100]
      [5/100, 5/100] (95/100) "historical") = some true := by
  apply claim_C3 (fun _ => 0) (fun _ => 0) [1/100, -1/100] [5/100, 5/100]
    (95/100) "historical" rfl
  intro p hp
  fin_cases hp <;> norm_num

/-- C5: the parametric estimator on a non-empty series succeeds for both
selector tags "normal" and "t" (the two members of the {normal, student-t}
enumeration) and fails with the unsupported-distribution error for every
other tag. -/
theorem claim_C5 (k : StatKernels) (self : VaRCalculator) (returns : List ℚ)
    (c : ℚ) (pv : Option ℚ) (d : String) (hne : returns ≠ []) :
    isOk (calculate_parametric_var k self returns c "normal" pv) = true ∧
    isOk (calculate_parametric_var k self returns c "t" pv) = true ∧
    (d ≠ "normal" → d ≠ "t" →
      calculate_parametric_var k self returns c d pv =
        .error (.unsupportedDistribution d)) := by
  refine ⟨?_, ?_, fun hd1 hd2 => ?_⟩
  · rw [calculate_parametric_var, if_neg hne]
    simp [isOk]
  · rw [calculate_parametric_var, if_neg hne]
    simp [isOk]
  · rw [calculate_parametric_var, if_neg hne, if_neg hd1, if_neg hd2]

/-- C5 (witness): the parametric tag theorem instantiated on the series
[0.01] with the foreign tag "cauchy". -/
theorem claim_C5_witness :
    isOk (calculate_parametric_var ⟨fun _ => 0, fun _ _ => 0, fun _ => 0, fun _ => 0⟩
      {} [1/100] (95/100) "normal" none) = true ∧
    isOk (calculate_parametric_var ⟨fun _ => 0, fun _ _ => 0, fun _ => 0, fun _ => 0⟩
      {} [1/100] (95/100) "t" none) = true ∧
    calculate_parametric_var ⟨fun _ => 0, fun _ _ => 0, fun _ => 0, fun _ => 0⟩
      {} [1/100] (95/100) "cauchy" none =
      .error (.unsupportedDistribution "cauchy") := by
  have h := claim_C5 ⟨fun _ => 0, fun _ _ => 0, fun _ => 0, fun _ => 0⟩
    {} [1/100] (95/100) none "cauchy" (by simp)
  exact ⟨h.1, h.2.1, h.2.2 (by simp) (by simp)⟩

/-- C6: every one of the four single-asset estimators, applied to the empty
return series, fails with the empty-input error and produces no result. -/
theorem claim_C6 (k : StatKernels) (rng : ℚ → ℚ → ℕ → List ℚ)
    (self : VaRCalculator) (c : ℚ) (d : String) (sims : ℕ)
    (w : Option HybridWeights) (pv : Option ℚ) :
    calculate_historical_var self [] c pv = .error .emptyInput ∧
    calculate_parametric_var k self [] c d pv = .error .emptyInput ∧
    calculate_monte_carlo_var k rng self [] c sims pv = .error .emptyInput ∧
    calculate_hybrid_var k rng self [] c w pv = .error .emptyInput := by
  refine ⟨?_, ?_, ?_, ?_⟩
  · rw [calculate_historical_var, if_pos rfl]
  · rw [calculate_parametric_var, if_pos rfl]
  · rw [calculate_monte_carlo_var, if_pos rfl]
  · rw [calculate_hybrid_var, if_pos rfl]

/-- C8 (counterexample): on the constant series [0.01, 0.01, 0.01] the
historical estimator succeeds with volatility 0, but the skewness it stores
is the NaN value (m2 = 0, not the number 0) and the kurtosis is NaN, not
the clamped 0 the claim asserts. -/
theorem claim_C8_counterexample :
    isOk (calculate_historical_var {} [1/100, 1/100, 1/100] (95/100) none) = true ∧
    volSqOf (calculate_historical_var {} [1/100, 1/100, 1/100] (95/100) none) = some 0 ∧
    skewOf (calculate_historical_var {} [1/100, 1/100, 1/100] (95/100) none) =
      some { m3 := 0, m2 := 0 } ∧
    SkewVal.isNaN { m3 := 0, m2 := 0 } ∧
    ¬ SkewVal.repZero { m3 := 0, m2 := 0 } ∧
    kurtOf (calculate_historical_var {} [1/100, 1/100, 1/100] (95/100) none) =
      some NpFloat.nan ∧
    NpFloat.nan ≠ NpFloat.val 0 := by
  refine ⟨?_, ?_, ?_, ?_, ?_, ?_, ?_⟩
  · rw [calculate_historical_var, if_neg (by simp : ¬([1/100, 1/100, (1:ℚ)/100] = []))]
    norm_num [isOk]
  · rw [calculate_historical_var, if_neg (by simp : ¬([1/100, 1/100, (1:ℚ)/100] = []))]
    norm_num [volSqOf, centralMoment, npMean]
  · rw [calculate_historical_var, if_neg (by simp : ¬([1/100, 1/100, (1:ℚ)/100] = []))]
    norm_num [skewOf, scipySkew, centralMoment, npMean]
  · norm_num [SkewVal.isNaN]
  · norm_num [SkewVal.repZero]
  · rw [calculate_historical_var, if_neg (by simp : ¬([1/100, 1/100, (1:ℚ)/100] = []))]
    norm_num [kurtOf, scipyKurtosis, centralMoment, npMean]
  · simp

/-- C8 (amended): for every non-empty constant return series the historical
estimator succeeds with volatility exactly 0, but the stored skewness and
excess kurtosis are NaN (the undefined 0/0 marker scipy returns for
constant input), not the clamped value 0. -/
theorem claim_C8_amended (self : VaRCalculator) (returns : List ℚ) (c : ℚ)
    (pv : Option ℚ) (a : ℚ) (hne : returns ≠ []) (hconst : ∀ x ∈ returns, x = a) :
    isOk (calculate_historical_var self returns c pv) = true ∧
    volSqOf (calculate_historical_var self returns c pv) = some 0 ∧
    (∀ s, skewOf (calculate_historical_var self returns c pv) = some s → s.isNaN) ∧
    kurtOf (calculate_historical_var self returns c pv) = some NpFloat.nan := by
  have hm2 : centralMoment returns 2 = 0 :=
    centralMoment_const hne (by norm_num) hconst
  rw [calculate_historical_var, if_neg hne]
  refine ⟨rfl, ?_, ?_, ?_⟩
  · simp only [volSqOf, hm2]
  · intro s hs
    simp only [skewOf, Option.some.injEq] at hs
    rw [← hs]
    exact hm2
  · simp only [kurtOf, scipyKurtosis, if_pos hm2]

/-- C8 (witness): the amended constant-series theorem instantiated on the
series [0.05, 0.05]. -/
theorem claim_C8_witness :
    isOk (calculate_historical_var {} [5/100, 5/100] (95/100) none) = true ∧
    volSqOf (calculate_historical_var {} [5/100, 5/100] (95/100) none) = some 0 ∧
    (∀ s, skewOf (calculate_historical_var {} [5/100, 5/100] (95/100) none) = some s →
      s.isNaN) ∧
    kurtOf (calculate_historical_var {} [5/100, 5/100] (95/100) none) =
      some NpFloat.nan := by
  apply claim_C8_amended {} [5/100, 5/100] (95/100) none (5/100) (by simp)
  intro x hx
  fin_cases hx <;> rfl

/-! ### Structural lemmas for the falsy portfolio value and the asset loop -/

lemma resolve_some_zero (self : VaRCalculator) :
    resolvePortfolioValue self (some 0) = resolvePortfolioValue self none := by
  simp [resolvePortfolioValue]

lemma historical_pv_zero (self : VaRCalculator) (returns : List ℚ) (c : ℚ) :
    calculate_historical_var self returns c (some 0) =
      calculate_historical_var self returns c none := by
  simp only [calculate_historical_var, resolve_some_zero]

lemma parametric_pv_zero (k : StatKernels) (self : VaRCalculator) (returns : List ℚ)
    (c : ℚ) (d : String) :
    calculate_parametric_var k self returns c d (some 0) =
      calculate_parametric_var k self returns c d none := by
  simp only [calculate_parametric_var, resolve_some_zero]

lemma monte_carlo_pv_zero (k : StatKernels) (rng : ℚ → ℚ → ℕ → List ℚ)
    (self : VaRCalculator) (returns : List ℚ) (c : ℚ) (sims : ℕ) :
    calculate_monte_carlo_var k rng self returns c sims (some 0) =
      calculate_monte_carlo_var k rng self returns c sims none := by
  simp only [calculate_monte_carlo_var, resolve_some_zero]

lemma hybrid_pv_zero (k : StatKernels) (rng : ℚ → ℚ → ℕ → List ℚ)
    (self : VaRCalculator) (returns : List ℚ) (c : ℚ) (w : Option HybridWeights) :
    calculate_hybrid_var k rng self returns c w (some 0) =
      calculate_hybrid_var k rng self returns c w none := by
  simp only [calculate_hybrid_var, historical_pv_zero, parametric_pv_zero,
    monte_carlo_pv_zero, resolve_some_zero]

lemma isOk_iff_exists {α : Type} (e : Except VaRError α) :
    isOk e = true ↔ ∃ r, e = .ok r := by
  cases e <;> simp [isOk]

lemma mapExcept_ok_mem {α β : Type} (f : α → Except VaRError β) :
    ∀ {l : List α} {out : List β}, mapExcept f l = .ok out →
      ∀ x ∈ l, ∃ y ∈ out, f x = .ok y := by
  intro l
  induction l with
  | nil => intro out _ x hx; exact absurd hx (List.not_mem_nil x)
  | cons a as ih =>
    intro out h x hx
    simp only [mapExcept] at h
    cases hfa : f a with
    | error e => rw [hfa] at h; simp at h
    | ok y =>
      rw [hfa] at h
      cases hrec : mapExcept f as with
      | error e => rw [hrec] at h; simp at h
      | ok ys =>
        rw [hrec] at h
        simp only [Except.ok.injEq] at h
        subst h
        rcases List.mem_cons.mp hx with rfl | hx2
        · exact ⟨y, List.mem_cons_self _ _, hfa⟩
        · obtain ⟨z, hz, hfz⟩ := ih hrec x hx2
          exact ⟨z, List.mem_cons_of_mem _ hz, hfz⟩

lemma portfolio_ok_individuals (k : StatKernels) (self : VaRCalculator)
    (assets : List (String × List ℚ)) (weights : String → ℚ) (c : ℚ)
    (method : String) (pv : Option ℚ) (res : PortfolioVaRResult)
    (hok : calculate_portfolio_var k self assets weights c method pv = .ok res) :
    mapExcept (portfolioStep k self c method (resolvePortfolioValue self pv) weights)
      assets = .ok res.individual_vars := by
  by_cases hne : assets = []
  · rw [hne, calculate_portfolio_var, if_pos rfl] at hok
    exact absurd hok (by simp)
  · rw [calculate_portfolio_var, if_neg hne] at hok
    cases hmap : mapExcept (portfolioStep k self c method
        (resolvePortfolioValue self pv) weights) assets with
    | error e => rw [hmap] at hok; simp at hok
    | ok ivars =>
      rw [hmap] at hok
      cases hcorr : npCorrcoef (assets.map (fun p => p.2)) with
      | error e => rw [hcorr] at hok; simp at hok
      | ok corr =>
        rw [hcorr] at hok
        cases hpr : (if method = "historical" then
            calculate_historical_var self (portfolioReturns assets weights) c
              (some (resolvePortfolioValue self pv))
          else
            calculate_parametric_var k self (portfolioReturns assets weights) c
              "normal" (some (resolvePortfolioValue self pv))) with
        | error e => rw [hpr] at hok; simp at hok
        | ok pr =>
          rw [hpr] at hok
          simp only [Except.ok.injEq] at hok
          rw [← hok]

lemma historical_ne_nil_ok (self : VaRCalculator) {returns : List ℚ}
    (hne : returns ≠ []) (c : ℚ) (pv : Option ℚ) :
    ∃ r, calculate_historical_var self returns c pv = Except.ok r := by
  rw [calculate_historical_var, if_neg hne]
  exact ⟨_, rfl⟩

lemma npCorrcoef_ok_of_rect (rows : List (List ℚ))
    (h : rows.all (fun r => r.length = (rows.headD []).length) = true) :
    ∃ M, npCorrcoef rows = .ok M := by
  rw [npCorrcoef, if_pos h]
  exact ⟨_, rfl⟩

/-- C7: evaluation of the aggregator at asset series of differing lengths
(2 and 3 observations): `np.array`/`np.corrcoef` fails on the ragged,
untruncated rows and the whole call raises — no truncated correlation
matrix (and no result at all) is produced, contrary to the claim. -/
theorem claim_C7 :
    calculate_portfolio_var ⟨fun _ => 0, fun _ _ => 0, fun _ => 0, fun _ => 0⟩ {}
      [("A", [1/100, 2/100]), ("B", [1/100, 2/100, 3/100])] (fun _ => 1/2)
      (95/100) "historical" none = .error .raggedArray := by
  obtain ⟨rA, hA⟩ := historical_ne_nil_ok {}
    (by simp : ¬([1/100, (2:ℚ)/100] = [])) (95/100)
    (some (resolvePortfolioValue {} none * (fun (_ : String) => (1:ℚ)/2) "A"))
  obtain ⟨rB, hB⟩ := historical_ne_nil_ok {}
    (by simp : ¬([1/100, 2/100, (3:ℚ)/100] = [])) (95/100)
    (some (resolvePortfolioValue {} none * (fun (_ : String) => (1:ℚ)/2) "B"))
  have hstepA : portfolioStep ⟨fun _ => 0, fun _ _ => 0, fun _ => 0, fun _ => 0⟩ {}
      (95/100) "historical" (resolvePortfolioValue {} none) (fun _ => 1/2)
      ("A", [1/100, 2/100]) = .ok ("A", rA.var_value) := by
    rw [portfolioStep, if_pos rfl, hA]
  have hstepB : portfolioStep ⟨fun _ => 0, fun _ _ => 0, fun _ => 0, fun _ => 0⟩ {}
      (95/100) "historical" (resolvePortfolioValue {} none) (fun _ => 1/2)
      ("B", [1/100, 2/100, 3/100]) = .ok ("B", rB.var_value) := by
    rw [portfolioStep, if_pos rfl, hB]
  have hmap : mapExcept (portfolioStep ⟨fun _ => 0, fun _ _ => 0, fun _ => 0, fun _ => 0⟩
      {} (95/100) "historical" (resolvePortfolioValue {} none) (fun _ => 1/2))
      [("A", [1/100, 2/100]), ("B", [1/100, 2/100, 3/100])] =
      .ok [("A", rA.var_value), ("B", rB.var_value)] := by
    simp only [mapExcept, hstepA, hstepB]
  have hcorr : npCorrcoef ([("A", [(1:ℚ)/100, 2/100]),
      ("B", [1/100, 2/100, 3/100])].map (fun p => p.2)) = .error .raggedArray := by
    rw [npCorrcoef, if_neg (by simp)]
  rw [calculate_portfolio_var,
    if_neg (by simp : ¬([("A", [1/100, 2/100]),
      ("B", [1/100, 2/100, (3:ℚ)/100])] = []))]
  simp only [hmap, hcorr]

/-- C10: for every estimator, passing `portfolio_value = 0` produces the
same result as omitting the argument (Python's falsy `or` substitutes the
calculator's default); in particular, in the portfolio aggregator an asset
with weight 0 has its individual VaR computed against the full default
portfolio value rather than 0. -/
theorem claim_C10 :
    (∀ (self : VaRCalculator) (returns : List ℚ) (c : ℚ),
      calculate_historical_var self returns c (some 0) =
        calculate_historical_var self returns c none) ∧
    (∀ (k : StatKernels) (self : VaRCalculator) (returns : List ℚ) (c : ℚ) (d : String),
      calculate_parametric_var k self returns c d (some 0) =
        calculate_parametric_var k self returns c d none) ∧
    (∀ (k : StatKernels) (rng : ℚ → ℚ → ℕ → List ℚ) (self : VaRCalculator)
      (returns : List ℚ) (c : ℚ) (sims : ℕ),
      calculate_monte_carlo_var k rng self returns c sims (some 0) =
        calculate_monte_carlo_var k rng self returns c sims none) ∧
    (∀ (k : StatKernels) (rng : ℚ → ℚ → ℕ → List ℚ) (self : VaRCalculator)
      (returns : List ℚ) (c : ℚ) (w : Option HybridWeights),
      calculate_hybrid_var k rng self returns c w (some 0) =
        calculate_hybrid_var k rng self returns c w none) ∧
    (∀ (k : StatKernels) (self : VaRCalculator) (assets : List (String × List ℚ))
      (weights : String → ℚ) (c : ℚ) (pv : Option ℚ) (a : String) (rs : List ℚ),
      weights a = 0 → (a, rs) ∈ assets →
      isOk (calculate_portfolio_var k self assets weights c "historical" pv) = true →
      ∃ r, calculate_historical_var self rs c none = .ok r ∧
        (a, r.var_value) ∈ individualsOf
          (calculate_portfolio_var k self assets weights c "historical" pv)) := by
  refine ⟨historical_pv_zero, parametric_pv_zero, monte_carlo_pv_zero,
    hybrid_pv_zero, ?_⟩
  intro k self assets weights c pv a rs hw hmem hok
  obtain ⟨res, hres⟩ := (isOk_iff_exists _).mp hok
  have hmap := portfolio_ok_individuals k self assets weights c "historical" pv res hres
  obtain ⟨y, hy, hstep⟩ := mapExcept_ok_mem _ hmap (a, rs) hmem
  rw [portfolioStep, if_pos rfl] at hstep
  have hzero : resolvePortfolioValue self pv * weights (a, rs).1 = 0 := by
    show resolvePortfolioValue self pv * weights a = 0
    rw [hw, mul_zero]
  rw [hzero, historical_pv_zero] at hstep
  cases hr : calculate_historical_var self rs c none with
  | error e => rw [hr] at hstep; simp at hstep
  | ok r =>
    rw [hr] at hstep
    simp only [Except.ok.injEq] at hstep
    refine ⟨r, rfl, ?_⟩
    rw [hres]
    simp only [individualsOf]
    rw [← hstep] at hy
    exact hy

/-- C10 (witness): the portfolio clause instantiated on a two-asset
portfolio where asset "A" has weight 0: its individual VaR entry equals the
historical VaR of its series at the calculator's default portfolio value. -/
theorem claim_C10_witness :
    ∃ r, calculate_historical_var {} [1/100, -2/100] (95/100) none = .ok r ∧
      ("A", r.var_value) ∈ individualsOf (calculate_portfolio_var
        ⟨fun _ => 0, fun _ _ => 0, fun _ => 0, fun _ => 0⟩ {}
        [("A", [1/100, -2/100]), ("B", [2/100, 1/100])]
        (fun s => if s = "A" then 0 else 1) (95/100) "historical" none) := by
  apply claim_C10.2.2.2.2 ⟨fun _ => 0, fun _ _ => 0, fun _ => 0, fun _ => 0⟩ {}
    [("A", [1/100, -2/100]), ("B", [2/100, 1/100])]
    (fun s => if s = "A" then 0 else 1) (95/100) none "A" [1/100, -2/100]
    (by simp) (List.mem_cons_self _ _)
  obtain ⟨rA, hA⟩ := historical_ne_nil_ok {}
    (by simp : ¬([1/100, -(2:ℚ)/100] = [])) (95/100)
    (some (resolvePortfolioValue {} none *
      (fun s => if s = "A" then (0:ℚ) else 1) "A"))
  obtain ⟨rB, hB⟩ := historical_ne_nil_ok {}
    (by simp : ¬([2/100, (1:ℚ)/100] = [])) (95/100)
    (some (resolvePortfolioValue {} none *
      (fun s => if s = "A" then (0:ℚ) else 1) "B"))
  have hstepA : portfolioStep ⟨fun _ => 0, fun _ _ => 0, fun _ => 0, fun _ => 0⟩ {}
      (95/100) "historical" (resolvePortfolioValue {} none)
      (fun s => if s = "A" then 0 else 1)
      ("A", [1/100, -2/100]) = .ok ("A", rA.var_value) := by
    rw [portfolioStep, if_pos rfl, hA]
  have hstepB : portfolioStep ⟨fun _ => 0, fun _ _ => 0, fun _ => 0, fun _ => 0⟩ {}
      (95/100) "historical" (resolvePortfolioValue {} none)
      (fun s => if s = "A" then 0 else 1)
      ("B", [2/100, 1/100]) = .ok ("B", rB.var_value) := by
    rw [portfolioStep, if_pos rfl, hB]
  have hmap : mapExcept (portfolioStep ⟨fun _ => 0, fun _ _ => 0, fun _ => 0, fun _ => 0⟩
      {} (95/100) "historical" (resolvePortfolioValue {} none)
      (fun s => if s = "A" then 0 else 1))
      [("A", [1/100, -2/100]), ("B", [2/100, 1/100])] =
      .ok [("A", rA.var_value), ("B", rB.var_value)] := by
    simp only [mapExcept, hstepA, hstepB]
  obtain ⟨M, hcorr⟩ := npCorrcoef_ok_of_rect
    ([("A", [(1:ℚ)/100, -2/100]), ("B", [2/100, 1/100])].map (fun p => p.2))
    (by simp)
  have hpne : portfolioReturns [("A", [(1:ℚ)/100, -2/100]), ("B", [2/100, 1/100])]
      (fun s => if s = "A" then 0 else 1) ≠ [] := by
    simp [portfolioReturns, listMin, List.range_succ]
  obtain ⟨rP, hP⟩ := historical_ne_nil_ok {} hpne (95/100)
    (some (resolvePortfolioValue {} none))
  rw [calculate_portfolio_var,
    if_neg (by simp : ¬([("A", [1/100, -2/100]),
      ("B", [2/100, (1:ℚ)/100])] = []))]
  simp only [hmap, hcorr, hP, if_true, isOk]

end HaniwaVaR
